import Mathlib

/-!
Verification of the palette-entry editing engine of
`src/app/commands/cmd_palette_editor.cpp` (class `PaletteEntryEditor`).

The C++ code is shallowly embedded: palettes are lists of `Rgba` records,
the selection is a list of booleans, machine `uint8_t` truncation is `% 256`,
floating-point color math is modelled over `ℚ`, and the stateful fields of
`PaletteEntryEditor` (`m_redrawAll`, `m_implantChange`, `m_selfPalChange`,
`m_fromPalette`, `m_relDeltas`, the redraw timer) become an explicit
`EditorState` threaded through the event handlers.
-/

namespace PaletteEditor

/-- `enum class ColorSliders::Channel` from `app/ui/color_sliders.h`
(the channels used by `cmd_palette_editor.cpp`). -/
inductive Channel where
  | Red | Green | Blue
  | HsvHue | HsvSaturation | HsvValue
  | HslHue | HslSaturation | HslLightness
  | Gray | Alpha
deriving DecidableEq

/-- The `app::Color::Type` values used by `PaletteEntryEditor::m_type`
(`MaskType` is the initial value; `selectColorType` sets one of the others). -/
inductive ColorType where
  | MaskType | RgbType | HsvType | HslType
deriving DecidableEq

/-- A `doc::color_t` palette entry, kept unpacked as its four 8-bit fields. -/
structure Rgba where
  r : Nat
  g : Nat
  b : Nat
  a : Nat
deriving DecidableEq

/-- `doc::rgba(r, g, b, a)`: each component is truncated to `uint8_t`. -/
def rgba (r g b a : Int) : Rgba :=
  ⟨(r % 256).toNat, (g % 256).toNat, (b % 256).toNat, (a % 256).toNat⟩

/-- The payload of an edit event: the `app::Color` getters that
`cmd_palette_editor.cpp` reads (`getRed`, `getHsvHue`, ...). -/
structure AppColor where
  red : Int
  green : Int
  blue : Int
  alpha : Int
  hsvHue : ℚ
  hsvSaturation : ℚ
  hsvValue : ℚ
  hslHue : ℚ
  hslSaturation : ℚ
  hslLightness : ℚ

/-- The `MID(x, y, z)` macro from `base`: `y` clamped into `[x, z]`. -/
def MID (x y z : Int) : Int := max x (min y z)

/-- `MID` over rationals (the C++ code applies it to `double`s). -/
def MIDq (x y z : ℚ) : ℚ := max x (min y z)

/-- Modelled from the spec: input saturation/value/lightness of a conversion
are clamped into `[0,1]` (§4.1 ColorSpaceConverter). -/
def clamp01 (x : ℚ) : ℚ := max 0 (min x 1)

/-- Modelled from the spec: input hue of a conversion is wrapped into
`[0,360)` (§4.1 ColorSpaceConverter). -/
def wrapHue (x : ℚ) : ℚ := x - 360 * (⌊x / 360⌋ : ℤ)

/-- Modelled from the spec: conversion output channels are clamped to
`[0,255]` after scaling (§4.1); rounding to the nearest 8-bit value. -/
def roundClamp255 (x : ℚ) : Int := max 0 (min 255 ⌊255 * x + 1/2⌋)

/-- Modelled from the spec: `gfx::Hsv(gfx::Rgb)` — the standard RGB→HSV
conversion (hue in degrees, saturation/value in `[0,1]`, hue `0` when
saturation is `0`); the class is external to this translation unit. -/
def rgbToHsv (r g b : Int) : ℚ × ℚ × ℚ :=
  let M : Int := max r (max g b)
  let m : Int := min r (min g b)
  let d : Int := M - m
  let v : ℚ := (M : ℚ) / 255
  let s : ℚ := if M = 0 then 0 else (d : ℚ) / (M : ℚ)
  let h : ℚ :=
    if d = 0 then 0
    else if M = r then
      let x : ℚ := ((g : ℚ) - (b : ℚ)) / (d : ℚ)
      60 * (if x < 0 then x + 6 else x)
    else if M = g then 60 * (((b : ℚ) - (r : ℚ)) / (d : ℚ) + 2)
    else 60 * (((r : ℚ) - (g : ℚ)) / (d : ℚ) + 4)
  (h, s, v)

/-- Modelled from the spec: `gfx::Rgb(gfx::Hsv)` — the standard HSV→RGB
conversion with inputs normalized into their domains and outputs clamped
to `[0,255]` (§4.1). -/
def hsvToRgb (h s v : ℚ) : Int × Int × Int :=
  let hw := wrapHue h
  let sc := clamp01 s
  let vc := clamp01 v
  let i : Int := ⌊hw / 60⌋
  let f : ℚ := hw / 60 - (i : ℚ)
  let p := vc * (1 - sc)
  let q := vc * (1 - f * sc)
  let t := vc * (1 - (1 - f) * sc)
  let rgb : ℚ × ℚ × ℚ :=
    if i = 0 then (vc, t, p)
    else if i = 1 then (q, vc, p)
    else if i = 2 then (p, vc, t)
    else if i = 3 then (p, q, vc)
    else if i = 4 then (t, p, vc)
    else (vc, p, q)
  (roundClamp255 rgb.1, roundClamp255 rgb.2.1, roundClamp255 rgb.2.2)

/-- Modelled from the spec: `gfx::Hsl(gfx::Rgb)` — the standard RGB→HSL
conversion (hue in degrees, saturation/lightness in `[0,1]`). -/
def rgbToHsl (r g b : Int) : ℚ × ℚ × ℚ :=
  let M : Int := max r (max g b)
  let m : Int := min r (min g b)
  let d : Int := M - m
  let l : ℚ := ((M : ℚ) + (m : ℚ)) / 510
  let s : ℚ := if d = 0 then 0 else (d : ℚ) / (255 * (1 - |2 * l - 1|))
  let h : ℚ :=
    if d = 0 then 0
    else if M = r then
      let x : ℚ := ((g : ℚ) - (b : ℚ)) / (d : ℚ)
      60 * (if x < 0 then x + 6 else x)
    else if M = g then 60 * (((b : ℚ) - (r : ℚ)) / (d : ℚ) + 2)
    else 60 * (((r : ℚ) - (g : ℚ)) / (d : ℚ) + 4)
  (h, s, l)

/-- Modelled from the spec: `gfx::Rgb(gfx::Hsl)` — the standard HSL→RGB
conversion with inputs normalized into their domains and outputs clamped
to `[0,255]` (§4.1). -/
def hslToRgb (h s l : ℚ) : Int × Int × Int :=
  let hw := wrapHue h
  let sc := clamp01 s
  let lc := clamp01 l
  let c := (1 - |2 * lc - 1|) * sc
  let hp : ℚ := hw / 60
  let x := c * (1 - |hp - 2 * (⌊hp / 2⌋ : ℤ) - 1|)
  let m0 := lc - c / 2
  let i : Int := ⌊hp⌋
  let rgb : ℚ × ℚ × ℚ :=
    if i = 0 then (c, x, 0)
    else if i = 1 then (x, c, 0)
    else if i = 2 then (0, c, x)
    else if i = 3 then (0, x, c)
    else if i = 4 then (x, 0, c)
    else (c, 0, x)
  (roundClamp255 (rgb.1 + m0), roundClamp255 (rgb.2.1 + m0), roundClamp255 (rgb.2.2 + m0))

/-- `PaletteEntryEditor::getPicks`: take the palette view's explicit
selection; if it has no set entries and the single selected index is in
range, fall back to picking exactly that index. -/
def getPicks (sel : List Bool) (fallback : Int) : List Bool :=
  if sel.count true = 0 then
    if 0 ≤ fallback ∧ fallback < (sel.length : Int) then
      sel.set fallback.toNat true
    else sel
  else sel

/-- The `for (c=0; c<palette->size(); c++) if (entries[c]) palette->setEntry(c, f(...))`
loop shared by the absolute edit and `setPaletteEntry`: entries whose pick
flag is set are replaced by `f` of their current value, others are kept. -/
def editLoop (f : Rgba → Rgba) : List Bool → List Rgba → List Rgba
  | s :: ss, e :: es => (if s then f e else e) :: editLoop f ss es
  | _, es => es

/-- The loop of `setRelativePaletteEntryChannel`: picked entries are
replaced by `f` of the corresponding `m_fromPalette` (baseline) entry,
others keep their live value. -/
def relLoop (f : Rgba → Rgba) : List Bool → List Rgba → List Rgba → List Rgba
  | s :: ss, fe :: fs, e :: es => (if s then f fe else e) :: relLoop f ss fs es
  | _, _, es => es

/-- `PaletteEntryEditor::setPaletteEntry`: every picked entry is set to
`doc::rgba(color.getRed(), color.getGreen(), color.getBlue(), 255)`. -/
def setPaletteEntry (sel : List Bool) (fallback : Int) (color : AppColor)
    (pal : List Rgba) : List Rgba :=
  let entries := getPicks sel fallback
  editLoop (fun _e => rgba color.red color.green color.blue 255) entries pal

/-- The per-entry body of `setAbsolutePaletteEntryChannel`.  The `RgbType`
multi-pick branch reproduces the C++ `switch` exactly, including the missing
`break` after `case Red` (which falls through into `case Green`). -/
def absApply (mtype : ColorType) (channel : Channel) (picksCount : Nat)
    (color : AppColor) (e : Rgba) : Rgba :=
  let r : Int := e.r
  let g : Int := e.g
  let b : Int := e.b
  let a : Int := e.a
  match mtype with
  | ColorType.RgbType =>
    if picksCount = 1 then
      rgba color.red color.green color.blue color.alpha
    else
      match channel with
      | Channel.Red => rgba color.red color.green b a
      | Channel.Green => rgba r color.green b a
      | Channel.Blue => rgba r g color.blue a
      | Channel.Alpha => rgba r g b color.alpha
      | _ => rgba r g b a
  | ColorType.HsvType =>
    if picksCount = 1 then
      let rgb := hsvToRgb color.hsvHue color.hsvSaturation color.hsvValue
      rgba rgb.1 rgb.2.1 rgb.2.2 color.alpha
    else
      let hsv := rgbToHsv r g b
      let hsva : ℚ × ℚ × ℚ × Int :=
        match channel with
        | Channel.HsvHue => (color.hsvHue, hsv.2.1, hsv.2.2, a)
        | Channel.HsvSaturation => (hsv.1, color.hsvSaturation, hsv.2.2, a)
        | Channel.HsvValue => (hsv.1, hsv.2.1, color.hsvValue, a)
        | Channel.Alpha => (hsv.1, hsv.2.1, hsv.2.2, color.alpha)
        | _ => (hsv.1, hsv.2.1, hsv.2.2, a)
      let rgb := hsvToRgb hsva.1 hsva.2.1 hsva.2.2.1
      rgba rgb.1 rgb.2.1 rgb.2.2 hsva.2.2.2
  | ColorType.HslType =>
    if picksCount = 1 then
      let rgb := hslToRgb color.hslHue color.hslSaturation color.hslLightness
      rgba rgb.1 rgb.2.1 rgb.2.2 color.alpha
    else
      let hsl := rgbToHsl r g b
      let hsla : ℚ × ℚ × ℚ × Int :=
        match channel with
        | Channel.HslHue => (color.hslHue, hsl.2.1, hsl.2.2, a)
        | Channel.HslSaturation => (hsl.1, color.hslSaturation, hsl.2.2, a)
        | Channel.HslLightness => (hsl.1, hsl.2.1, color.hslLightness, a)
        | Channel.Alpha => (hsl.1, hsl.2.1, hsl.2.2, color.alpha)
        | _ => (hsl.1, hsl.2.1, hsl.2.2, a)
      let rgb := hslToRgb hsla.1 hsla.2.1 hsla.2.2.1
      rgba rgb.1 rgb.2.1 rgb.2.2 hsla.2.2.2
  | ColorType.MaskType => rgba r g b a

/-- `PaletteEntryEditor::setAbsolutePaletteEntryChannel`. -/
def setAbsolutePaletteEntryChannel (mtype : ColorType) (channel : Channel)
    (color : AppColor) (sel : List Bool) (fallback : Int)
    (pal : List Rgba) : List Rgba :=
  let entries := getPicks sel fallback
  let picksCount := entries.count true
  editLoop (absApply mtype channel picksCount color) entries pal

/-- The hue post-processing of the relative HSV/HSL branches:
`if (h < 0.0) h += 360.0; else if (h > 360.0) h -= 360.0;` — a single
±360 step, not a full wrap. -/
def relHueStep (x : ℚ) : ℚ :=
  if x < 0 then x + 360 else if x > 360 then x - 360 else x

/-- The full relative-HSV hue processing: the single ±360 step followed by
`hsv.hue(MID(0.0, h, 360.0))`. -/
def relHue (x : ℚ) : ℚ := MIDq 0 (relHueStep x) 360

/-- The per-entry body of `setRelativePaletteEntryChannel`, applied to the
entry's `m_fromPalette` (baseline) value with the stored delta map
`m_relDeltas` (`std::map` subscripting defaults to `0`). -/
def relApply (mtype : ColorType) (rd : Channel → Int) (fe : Rgba) : Rgba :=
  let r : Int := fe.r
  let g : Int := fe.g
  let b : Int := fe.b
  let a : Int := fe.a
  match mtype with
  | ColorType.RgbType =>
    rgba (MID 0 (r + rd Channel.Red) 255)
         (MID 0 (g + rd Channel.Green) 255)
         (MID 0 (b + rd Channel.Blue) 255)
         (MID 0 (a + rd Channel.Alpha) 255)
  | ColorType.HsvType =>
    let hsv := rgbToHsv r g b
    let h := relHue (hsv.1 + (rd Channel.HsvHue : ℚ))
    let s := MIDq 0 (hsv.2.1 + (rd Channel.HsvSaturation : ℚ) / 100) 1
    let v := MIDq 0 (hsv.2.2 + (rd Channel.HsvValue : ℚ) / 100) 1
    let rgb := hsvToRgb h s v
    rgba rgb.1 rgb.2.1 rgb.2.2 (MID 0 (a + rd Channel.Alpha) 255)
  | ColorType.HslType =>
    let hsl := rgbToHsl r g b
    let h := relHueStep (hsl.1 + (rd Channel.HslHue : ℚ))
    let s := MIDq 0 (hsl.2.1 + (rd Channel.HslSaturation : ℚ) / 100) 1
    let l := MIDq 0 (hsl.2.2 + (rd Channel.HslLightness : ℚ) / 100) 1
    let rgb := hslToRgb h s l
    rgba rgb.1 rgb.2.1 rgb.2.2 (MID 0 (a + rd Channel.Alpha) 255)
  | ColorType.MaskType => rgba r g b a

/-- `PaletteEntryEditor::setRelativePaletteEntryChannel`: stores the new
delta for the touched channel (`m_relDeltas[channel] = delta`), then
recomputes every picked entry from `m_fromPalette` with the stored deltas.
Returns the updated delta map together with the updated live palette. -/
def setRelativePaletteEntryChannel (mtype : ColorType) (sel : List Bool)
    (fallback : Int) (channel : Channel) (delta : Int) (rd : Channel → Int)
    (fromPal pal : List Rgba) : (Channel → Int) × List Rgba :=
  let entries := getPicks sel fallback
  let rd2 := Function.update rd channel delta
  (rd2, relLoop (relApply mtype rd2) entries fromPal pal)

/-! ## Editor state and event handlers -/

/-- The mutable fields of `PaletteEntryEditor` relevant to the coalescing
and relative-edit machinery, plus whether `m_redrawTimer` is running. -/
structure EditorState where
  mtype : ColorType
  redrawAll : Bool
  implantChange : Bool
  selfPalChange : Bool
  timerRunning : Bool
  fromPalette : List Rgba
  relDeltas : Channel → Int

/-- `PaletteEntryEditor::resetRelativeInfo`: retake the baseline snapshot
from the current (system) palette and clear all stored deltas. -/
def resetRelativeInfo (current : List Rgba) (st : EditorState) : EditorState :=
  { st with fromPalette := current, relDeltas := fun _ => 0 }

/-- `PaletteEntryEditor::updateWidgetsFromSelectedEntries` (state part):
the widget refresh is UI-only; the state effect is `resetRelativeInfo`. -/
def updateWidgetsFromSelectedEntries (current : List Rgba) (st : EditorState) :
    EditorState :=
  resetRelativeInfo current st

/-- `PaletteEntryEditor::onPalChange`: reacts to the `PaletteChange`
broadcast unless this editor raised it itself (`m_selfPalChange`). -/
def onPalChange (current : List Rgba) (st : EditorState) : EditorState :=
  if st.selfPalChange then st else updateWidgetsFromSelectedEntries current st

/-- `PaletteEntryEditor::selectColorType` (state part): set `m_type` and
reset the relative-edit info. -/
def selectColorType (t : ColorType) (current : List Rgba) (st : EditorState) :
    EditorState :=
  resetRelativeInfo current { st with mtype := t }

/-- Observable side effects of a redraw-timer firing. -/
inductive Effect where
  | updateEditor
  | paletteChangeBroadcast
  | generalUpdate
deriving DecidableEq

/-- The `kTimerMessage` branch of `PaletteEntryEditor::onProcessMessage`.
If `m_redrawAll` is set this is the finalize firing: clear the flags, stop
the timer, raise `PaletteChange` with `m_selfPalChange` set (which reaches
this editor's own `onPalChange`), and request a full document update.
Otherwise it is the lightweight firing: redraw the current editor only and
set `m_redrawAll` for the next firing. -/
def onTimerFire (hasEditor hasDoc : Bool) (current : List Rgba)
    (st : EditorState) : List Effect × EditorState :=
  if st.redrawAll then
    let st1 := { st with redrawAll := false, implantChange := false,
                         timerRunning := false, selfPalChange := true }
    let st2 := onPalChange current st1
    let st3 := { st2 with selfPalChange := false }
    (Effect.paletteChangeBroadcast ::
       (if hasDoc then [Effect.generalUpdate] else []), st3)
  else
    ((if hasEditor then [Effect.updateEditor] else []),
     { st with redrawAll := true })

/-- The unconditional tail of `updateCurrentSpritePalette`: start the
redraw timer if it is not running, clear `m_redrawAll`, and set
`m_implantChange`. -/
def commitTail (st : EditorState) : EditorState :=
  { st with timerRunning := true, redrawAll := false, implantChange := true }

/-! ## Commit of the edited palette to the document -/

/-- Modelled from the spec: `doc::Palette::countDiff` computes the inclusive
index range where the two palettes differ; no difference yields
`from > to` (§4.4 step 2; the class is external to this translation unit). -/
def countDiff (a b : List Rgba) : Int × Int :=
  let n := max a.length b.length
  let idxs := (List.range n).filter (fun i => decide (a.get? i ≠ b.get? i))
  match idxs.head?, idxs.getLast? with
  | some f, some t => ((f : Int), (t : Int))
  | _, _ => (0, -1)

/-- What the undo layer is asked to do by `updateCurrentSpritePalette`. -/
inductive CommitAction where
  | Implant
  | NewTransaction (label : String)
  | NoAction
deriving DecidableEq

/-- Result of a commit: the undo action taken, the document (sprite)
palette afterwards, whether an exception was shown on the console, the
live palette (untouched by the commit), and the editor state. -/
structure CommitResult where
  action : CommitAction
  committed : List Rgba
  consoleShown : Bool
  livePalette : List Rgba
  st : EditorState

/-- The `try` body of `updateCurrentSpritePalette`: diff the sprite palette
against the system palette; when the range is non-empty, either implant a
`cmd::SetPalette` into the last executed undo command (when
`m_implantChange` is set and its label matches) or run it in a fresh
transaction labelled `operationName`.  `undoThrows` models the undo layer
raising `base::Exception`. -/
def updateInner (lastLbl : Option String) (opLbl : String) (undoThrows : Bool)
    (np sp : List Rgba) (implantChange : Bool) :
    Except String (CommitAction × List Rgba) :=
  let ft := countDiff sp np
  if 0 ≤ ft.1 ∧ ft.1 ≤ ft.2 then
    if implantChange ∧ lastLbl = some opLbl then
      if undoThrows then Except.error "undo layer failure"
      else Except.ok (CommitAction.Implant, np)
    else
      if undoThrows then Except.error "undo layer failure"
      else Except.ok (CommitAction.NewTransaction opLbl, np)
  else Except.ok (CommitAction.NoAction, sp)

/-- `PaletteEntryEditor::updateCurrentSpritePalette`: when a document with
a sprite is active, run `updateInner` and catch any exception on the
console; then unconditionally invalidate the palette view, start the
redraw timer if needed, clear `m_redrawAll` and set `m_implantChange`. -/
def updateCurrentSpritePalette (hasDoc undoThrows : Bool)
    (lastLbl : Option String) (opLbl : String) (np sp : List Rgba)
    (st : EditorState) : CommitResult :=
  let acp : CommitAction × List Rgba × Bool :=
    if hasDoc then
      match updateInner lastLbl opLbl undoThrows np sp st.implantChange with
      | Except.ok (a, p) => (a, p, false)
      | Except.error _ => (CommitAction.NoAction, sp, true)
    else (CommitAction.NoAction, sp, false)
  { action := acp.1
    committed := acp.2.1
    consoleShown := acp.2.2
    livePalette := np
    st := commitTail st }

/-- Definition following claim C3's words, for comparison with `relApply`:
the new color is the baseline entry's channels plus the stored deltas, with
RGB/alpha clamped to `[0,255]`, saturation/value/lightness clamped to
`[0,1]`, and hue wrapped into 0–360. -/
def relApplySpec (mtype : ColorType) (rd : Channel → Int) (fe : Rgba) : Rgba :=
  let r : Int := fe.r
  let g : Int := fe.g
  let b : Int := fe.b
  let a : Int := fe.a
  match mtype with
  | ColorType.RgbType =>
    rgba (MID 0 (r + rd Channel.Red) 255)
         (MID 0 (g + rd Channel.Green) 255)
         (MID 0 (b + rd Channel.Blue) 255)
         (MID 0 (a + rd Channel.Alpha) 255)
  | ColorType.HsvType =>
    let hsv := rgbToHsv r g b
    let h := wrapHue (hsv.1 + (rd Channel.HsvHue : ℚ))
    let s := MIDq 0 (hsv.2.1 + (rd Channel.HsvSaturation : ℚ) / 100) 1
    let v := MIDq 0 (hsv.2.2 + (rd Channel.HsvValue : ℚ) / 100) 1
    let rgb := hsvToRgb h s v
    rgba rgb.1 rgb.2.1 rgb.2.2 (MID 0 (a + rd Channel.Alpha) 255)
  | ColorType.HslType =>
    let hsl := rgbToHsl r g b
    let h := wrapHue (hsl.1 + (rd Channel.HslHue : ℚ))
    let s := MIDq 0 (hsl.2.1 + (rd Channel.HslSaturation : ℚ) / 100) 1
    let l := MIDq 0 (hsl.2.2 + (rd Channel.HslLightness : ℚ) / 100) 1
    let rgb := hslToRgb h s l
    rgba rgb.1 rgb.2.1 rgb.2.2 (MID 0 (a + rd Channel.Alpha) 255)
  | ColorType.MaskType => rgba r g b a

/-! ## Helper lemmas -/

lemma editLoop_nil (f : Rgba → Rgba) (sel : List Bool) :
    editLoop f sel [] = [] := by
  cases sel <;> rfl

lemma editLoop_getD (f : Rgba → Rgba) (sel : List Bool) (pal : List Rgba)
    (c : ℕ) (z : Rgba) (hc : c < pal.length) (hs : c < sel.length) :
    (editLoop f sel pal).getD c z =
      if sel.getD c false then f (pal.getD c z) else pal.getD c z := by
  induction pal generalizing sel c with
  | nil => simp at hc
  | cons e es ih =>
    cases sel with
    | nil => simp at hs
    | cons s ss =>
      cases c with
      | zero => simp [editLoop]
      | succ n =>
        simp only [editLoop, List.getD_cons_succ]
        exact ih ss n (by simpa using hc) (by simpa using hs)

lemma count_true_zero_head {s : Bool} {ss : List Bool}
    (h : (s :: ss).count true = 0) : s = false ∧ ss.count true = 0 := by
  rcases s with _ | _
  · simpa using h
  · simp [List.count_cons] at h

lemma editLoop_of_no_picks (f : Rgba → Rgba) (sel : List Bool)
    (pal : List Rgba) (h : sel.count true = 0) :
    editLoop f sel pal = pal := by
  induction pal generalizing sel with
  | nil => exact editLoop_nil f sel
  | cons e es ih =>
    cases sel with
    | nil => rfl
    | cons s ss =>
      obtain ⟨hs, hss⟩ := count_true_zero_head h
      subst hs
      simp [editLoop, ih ss hss]

lemma getD_false_of_no_picks (sel : List Bool) (j : ℕ)
    (h : sel.count true = 0) : sel.getD j false = false := by
  induction sel generalizing j with
  | nil => simp
  | cons s ss ih =>
    obtain ⟨hs, hss⟩ := count_true_zero_head h
    subst hs
    cases j with
    | zero => simp
    | succ n => simpa using ih n hss

lemma getD_set_true (l : List Bool) (i j : ℕ) :
    (l.set i true).getD j false =
      if i = j ∧ i < l.length then true else l.getD j false := by
  induction l generalizing i j with
  | nil => simp
  | cons x xs ih =>
    cases i with
    | zero =>
      cases j with
      | zero => simp
      | succ m => simp [List.set]
    | succ n =>
      cases j with
      | zero => simp [List.set]
      | succ m =>
        simp only [List.set, List.getD_cons_succ, ih n m, List.length_cons]
        by_cases h : n = m
        · subst h
          by_cases h2 : n < xs.length <;> simp [h2, Nat.succ_lt_succ_iff]
        · simp [h, fun hc => h (Nat.succ_injective hc)]

lemma relLoop_nil_sel (f : Rgba → Rgba) (fromPal pal : List Rgba) :
    relLoop f [] fromPal pal = pal := by
  cases fromPal <;> cases pal <;> rfl

lemma relLoop_getD (f : Rgba → Rgba) (sel : List Bool) (fromPal pal : List Rgba)
    (c : ℕ) (z : Rgba) (hc : c < pal.length) (hf : c < fromPal.length)
    (hs : c < sel.length) :
    (relLoop f sel fromPal pal).getD c z =
      if sel.getD c false then f (fromPal.getD c z) else pal.getD c z := by
  induction pal generalizing sel fromPal c with
  | nil => simp at hc
  | cons e es ih =>
    cases sel with
    | nil => simp at hs
    | cons s ss =>
      cases fromPal with
      | nil => simp at hf
      | cons fe fs =>
        cases c with
        | zero => simp [relLoop]
        | succ n =>
          simp only [relLoop, List.getD_cons_succ]
          exact ih ss fs n (by simpa using hc) (by simpa using hf)
            (by simpa using hs)

lemma relLoop_relLoop (f g : Rgba → Rgba) (sel : List Bool)
    (fromPal pal : List Rgba) :
    relLoop f sel fromPal (relLoop g sel fromPal pal) =
      relLoop f sel fromPal pal := by
  induction pal generalizing sel fromPal with
  | nil =>
    cases sel with
    | nil => rfl
    | cons s ss => cases fromPal <;> rfl
  | cons e es ih =>
    cases sel with
    | nil => rfl
    | cons s ss =>
      cases fromPal with
      | nil => rfl
      | cons fe fs =>
        cases s <;> simp [relLoop, ih ss fs]

lemma update_update {α β : Type} [DecidableEq α] (f : α → β) (a : α)
    (b c : β) :
    Function.update (Function.update f a b) a c = Function.update f a c := by
  funext x
  rcases eq_or_ne x a with h | h
  · subst h
    simp [Function.update_same]
  · simp [Function.update_noteq h]

lemma wrapHue_add_360 (x : ℚ) : wrapHue (x + 360) = wrapHue x := by
  unfold wrapHue
  have h : (x + 360) / 360 = x / 360 + (1 : ℤ) := by push_cast; ring
  rw [h, Int.floor_add_int]
  push_cast
  ring

lemma wrapHue_sub_360 (x : ℚ) : wrapHue (x - 360) = wrapHue x := by
  have h := wrapHue_add_360 (x - 360)
  simpa using h.symm

lemma wrapHue_relHueStep (x : ℚ) : wrapHue (relHueStep x) = wrapHue x := by
  unfold relHueStep
  by_cases h1 : x < 0
  · simp [h1, wrapHue_add_360]
  · by_cases h2 : x > 360
    · simp [h1, h2, wrapHue_sub_360]
    · simp [h1, h2]

lemma relHueStep_mem_of_bounds {x : ℚ} (h1 : -360 ≤ x) (h2 : x ≤ 720) :
    0 ≤ relHueStep x ∧ relHueStep x ≤ 360 := by
  unfold relHueStep
  by_cases hx1 : x < 0
  · simp only [if_pos hx1]
    constructor <;> linarith
  · by_cases hx2 : x > 360
    · simp only [if_neg hx1, if_pos hx2]
      constructor <;> linarith
    · simp only [if_neg hx1, if_pos, if_neg hx2]
      push_neg at hx1 hx2
      exact ⟨hx1, hx2⟩

lemma wrapHue_relHue_of_bounds {x : ℚ} (h1 : -360 ≤ x) (h2 : x ≤ 720) :
    wrapHue (relHue x) = wrapHue x := by
  obtain ⟨ha, hb⟩ := relHueStep_mem_of_bounds h1 h2
  have hid : relHue x = relHueStep x := by
    unfold relHue MIDq
    rw [min_eq_left hb, max_eq_right ha]
  rw [hid, wrapHue_relHueStep]

lemma relHue_mem (x : ℚ) : 0 ≤ relHue x ∧ relHue x ≤ 360 := by
  unfold relHue MIDq
  constructor
  · exact le_max_left 0 _
  · rcases le_total (relHueStep x) 360 with h | h
    · rw [min_eq_left h]
      rcases le_total 0 (relHueStep x) with h2 | h2
      · rw [max_eq_right h2]; exact h
      · rw [max_eq_left h2]; norm_num
    · rw [min_eq_right h]
      rw [max_eq_right (by norm_num : (0:ℚ) ≤ 360)]

lemma MIDq_mem (x : ℚ) : 0 ≤ MIDq 0 x 1 ∧ MIDq 0 x 1 ≤ 1 := by
  unfold MIDq
  constructor
  · exact le_max_left 0 _
  · rcases le_total x 1 with h | h
    · rw [min_eq_left h]
      rcases le_total 0 x with h2 | h2
      · rw [max_eq_right h2]; exact h
      · rw [max_eq_left h2]; norm_num
    · rw [min_eq_right h]
      rw [max_eq_right (by norm_num : (0:ℚ) ≤ 1)]

lemma MID_mem (x : Int) : 0 ≤ MID 0 x 255 ∧ MID 0 x 255 ≤ 255 := by
  unfold MID
  constructor
  · exact le_max_left 0 _
  · rcases le_total x 255 with h | h
    · rw [min_eq_left h]
      rcases le_total 0 x with h2 | h2
      · rw [max_eq_right h2]; exact h
      · rw [max_eq_left h2]; norm_num
    · rw [min_eq_right h]
      rw [max_eq_right (by norm_num : (0:Int) ≤ 255)]

/-! ## Claim theorems -/

/-- Claim C1 (code bug): in absolute RGB mode with two selected entries,
an edit of only the Red channel must leave green/blue/alpha unchanged, but
the source's `switch` falls through from `case Red` into `case Green`
(missing `break` at line 529), so the payload's green (5) silently
overwrites each selected entry's green (20 and 60). -/
theorem c1_rgb_red_fallthrough_eval :
    setAbsolutePaletteEntryChannel ColorType.RgbType Channel.Red
      { red := 200, green := 5, blue := 6, alpha := 7,
        hsvHue := 0, hsvSaturation := 0, hsvValue := 0,
        hslHue := 0, hslSaturation := 0, hslLightness := 0 }
      [true, true] (-1) [⟨10, 20, 30, 40⟩, ⟨50, 60, 70, 80⟩]
      = [⟨200, 5, 30, 40⟩, ⟨200, 5, 70, 80⟩]
    ∧ ((setAbsolutePaletteEntryChannel ColorType.RgbType Channel.Red
      { red := 200, green := 5, blue := 6, alpha := 7,
        hsvHue := 0, hsvSaturation := 0, hsvValue := 0,
        hslHue := 0, hslSaturation := 0, hslLightness := 0 }
      [true, true] (-1) [⟨10, 20, 30, 40⟩, ⟨50, 60, 70, 80⟩]).getD 0
        ⟨0, 0, 0, 0⟩).g ≠ 20 := by
  decide

/-- Claim C2 counterexample: `setRelativePaletteEntryChannel` stores each
new delta by assignment (`m_relDeltas[channel] = delta`), so the sequence
of relative edits +10, +5, −3 on Red from baseline red 100 ends at 97
(baseline − 3), not 112 (baseline + 12): replaying +10, +5, −3 is not the
same as a single +12. -/
theorem c2_replay_counterexample :
    (let s1 := setRelativePaletteEntryChannel ColorType.RgbType [true] (-1)
        Channel.Red 10 (fun _ => 0) [⟨100, 0, 0, 255⟩] [⟨100, 0, 0, 255⟩]
     let s2 := setRelativePaletteEntryChannel ColorType.RgbType [true] (-1)
        Channel.Red 5 s1.1 [⟨100, 0, 0, 255⟩] s1.2
     let s3 := setRelativePaletteEntryChannel ColorType.RgbType [true] (-1)
        Channel.Red (-3) s2.1 [⟨100, 0, 0, 255⟩] s2.2
     let single := setRelativePaletteEntryChannel ColorType.RgbType [true] (-1)
        Channel.Red 12 (fun _ => 0) [⟨100, 0, 0, 255⟩] [⟨100, 0, 0, 255⟩]
     s3.2 = [⟨97, 0, 0, 255⟩] ∧ single.2 = [⟨112, 0, 0, 255⟩]
       ∧ s3.2 ≠ single.2) := by
  decide

/-- Claim C2 amended: each new delta replaces the stored `ChannelDelta` for
the touched channel, and every entry is recomputed from the baseline, so a
sequence of relative edits with deltas `d1, d2, d3` on one channel yields
exactly the state of a single relative edit with delta `d3` (the latest
delta) from the same baseline. -/
theorem c2_latest_delta_wins (mtype : ColorType) (sel : List Bool)
    (fb : Int) (ch : Channel) (d1 d2 d3 : Int) (rd : Channel → Int)
    (fromPal pal : List Rgba) :
    setRelativePaletteEntryChannel mtype sel fb ch d3
      (setRelativePaletteEntryChannel mtype sel fb ch d2
        (setRelativePaletteEntryChannel mtype sel fb ch d1 rd fromPal pal).1
        fromPal
        (setRelativePaletteEntryChannel mtype sel fb ch d1 rd fromPal pal).2).1
      fromPal
      (setRelativePaletteEntryChannel mtype sel fb ch d2
        (setRelativePaletteEntryChannel mtype sel fb ch d1 rd fromPal pal).1
        fromPal
        (setRelativePaletteEntryChannel mtype sel fb ch d1 rd fromPal pal).2).2
    = setRelativePaletteEntryChannel mtype sel fb ch d3 rd fromPal pal := by
  simp only [setRelativePaletteEntryChannel]
  rw [update_update, update_update, relLoop_relLoop, relLoop_relLoop]

/-- Claim C5 (confirmed): the redraw tick is two-phase.  A commit leaves
`m_redrawAll` false with the timer running; the first firing afterwards
only redraws the current editor and arms the second phase; the second
consecutive firing broadcasts `PaletteChange`, requests a full document
update, stops the timer and clears the implant flag; a commit between
firings resets the phase so the next firing is lightweight again. -/
theorem c5_two_phase_tick (he hd ut : Bool) (cur cur2 cur3 np sp : List Rgba)
    (ll : Option String) (ol : String) (st : EditorState) :
    (updateCurrentSpritePalette hd ut ll ol np sp st).st = commitTail st
    ∧ (commitTail st).redrawAll = false
    ∧ (commitTail st).timerRunning = true
    ∧ (onTimerFire he hd cur (commitTail st)).1
        = (if he then [Effect.updateEditor] else [])
    ∧ (onTimerFire he hd cur (commitTail st)).2
        = { commitTail st with redrawAll := true }
    ∧ (onTimerFire he hd cur2 (onTimerFire he hd cur (commitTail st)).2).1
        = Effect.paletteChangeBroadcast ::
            (if hd then [Effect.generalUpdate] else [])
    ∧ (onTimerFire he hd cur2
        (onTimerFire he hd cur (commitTail st)).2).2.redrawAll = false
    ∧ (onTimerFire he hd cur2
        (onTimerFire he hd cur (commitTail st)).2).2.implantChange = false
    ∧ (onTimerFire he hd cur2
        (onTimerFire he hd cur (commitTail st)).2).2.timerRunning = false
    ∧ (onTimerFire he hd cur3
        (commitTail (onTimerFire he hd cur (commitTail st)).2)).1
        = (if he then [Effect.updateEditor] else [])
    ∧ (onTimerFire he hd cur3
        (commitTail (onTimerFire he hd cur (commitTail st)).2)).2.redrawAll
        = true := by
  simp [updateCurrentSpritePalette, onTimerFire, commitTail, onPalChange,
    updateWidgetsFromSelectedEntries, resetRelativeInfo]

/-- Claim C9 counterexample: a finalize firing of the coalescing tick
(`m_redrawAll` set) does not reset the relative-edit info.  The broadcast
reaches the editor's own `onPalChange` with `m_selfPalChange` set, so the
reset path is suppressed: the stored Red delta stays 5 (not cleared), and
`m_fromPalette` stays the old snapshot (not retaken from the current
palette `[⟨9,9,9,9⟩]`). -/
theorem c9_tick_finalize_counterexample :
    ((onTimerFire false false [⟨9, 9, 9, 9⟩]
        { mtype := ColorType.RgbType, redrawAll := true, implantChange := true,
          selfPalChange := false, timerRunning := true,
          fromPalette := [⟨1, 2, 3, 4⟩],
          relDeltas := fun c => if c = Channel.Red then 5 else 0 }).2.relDeltas
        Channel.Red = 5)
    ∧ ((5 : Int) ≠ 0)
    ∧ ((onTimerFire false false [⟨9, 9, 9, 9⟩]
        { mtype := ColorType.RgbType, redrawAll := true, implantChange := true,
          selfPalChange := false, timerRunning := true,
          fromPalette := [⟨1, 2, 3, 4⟩],
          relDeltas := fun c => if c = Channel.Red then 5 else 0 }).2.fromPalette
        = [⟨1, 2, 3, 4⟩])
    ∧ (([⟨1, 2, 3, 4⟩] : List Rgba) ≠ [⟨9, 9, 9, 9⟩]) := by
  refine ⟨?_, by decide, ?_, by decide⟩ <;>
    simp [onTimerFire, onPalChange]

/-- Claim C9 amended: the baseline snapshot and deltas are reset when the
color space changes (`selectColorType`), when the widgets are refreshed
from the selected entries (`updateWidgetsFromSelectedEntries`, reached on
selection changes and on external palette changes via `onPalChange`); the
coalescing-tick finalize only clears the implant flag and stops the timer,
leaving `m_fromPalette` and `m_relDeltas` unchanged. -/
theorem c9_reset_paths (t : ColorType) (he hd : Bool) (cur : List Rgba)
    (st : EditorState) :
    (selectColorType t cur st).relDeltas = (fun _ => 0)
    ∧ (selectColorType t cur st).fromPalette = cur
    ∧ (updateWidgetsFromSelectedEntries cur st).relDeltas = (fun _ => 0)
    ∧ (updateWidgetsFromSelectedEntries cur st).fromPalette = cur
    ∧ (st.selfPalChange = false →
        (onPalChange cur st).relDeltas = (fun _ => 0)
        ∧ (onPalChange cur st).fromPalette = cur)
    ∧ (st.redrawAll = true →
        (onTimerFire he hd cur st).2.relDeltas = st.relDeltas
        ∧ (onTimerFire he hd cur st).2.fromPalette = st.fromPalette
        ∧ (onTimerFire he hd cur st).2.implantChange = false
        ∧ (onTimerFire he hd cur st).2.timerRunning = false) := by
  refine ⟨rfl, rfl, rfl, rfl, fun h => ?_, fun h => ?_⟩
  · simp [onPalChange, h, updateWidgetsFromSelectedEntries, resetRelativeInfo]
  · simp [onTimerFire, h, onPalChange]

/-- Witness for `c9_reset_paths` at a concrete state whose
`m_selfPalChange` is false and whose `m_redrawAll` is set. -/
theorem c9_reset_paths_witness :
    (onPalChange [⟨7, 7, 7, 7⟩]
      { mtype := ColorType.RgbType, redrawAll := true, implantChange := true,
        selfPalChange := false, timerRunning := true,
        fromPalette := [⟨1, 2, 3, 4⟩],
        relDeltas := fun _ => 3 }).fromPalette = [⟨7, 7, 7, 7⟩]
    ∧ (onTimerFire false false [⟨7, 7, 7, 7⟩]
      { mtype := ColorType.RgbType, redrawAll := true, implantChange := true,
        selfPalChange := false, timerRunning := true,
        fromPalette := [⟨1, 2, 3, 4⟩],
        relDeltas := fun _ => 3 }).2.implantChange = false := by
  refine ⟨?_, ?_⟩
  · exact ((c9_reset_paths ColorType.RgbType false false [⟨7, 7, 7, 7⟩]
      _).2.2.2.2.1 rfl).2
  · exact ((c9_reset_paths ColorType.RgbType false false [⟨7, 7, 7, 7⟩]
      _).2.2.2.2.2 rfl).2.2.1

/-- Claim C4 (confirmed): on a commit with an active document and a
non-empty diff range, the implant happens exactly when `m_implantChange`
is set, a last executed undo command exists, and its label equals the
operation label; in every other such case a new transaction labelled with
the operation label executes the single set-palette command; either way
the document palette becomes the system palette. -/
theorem c4_implant_iff (ll : Option String) (ol : String) (np sp : List Rgba)
    (st : EditorState) (h1 : 0 ≤ (countDiff sp np).1)
    (h2 : (countDiff sp np).1 ≤ (countDiff sp np).2) :
    ((updateCurrentSpritePalette true false ll ol np sp st).action
        = CommitAction.Implant ↔ (st.implantChange = true ∧ ll = some ol))
    ∧ (¬(st.implantChange = true ∧ ll = some ol) →
        (updateCurrentSpritePalette true false ll ol np sp st).action
          = CommitAction.NewTransaction ol)
    ∧ (updateCurrentSpritePalette true false ll ol np sp st).committed = np
    ∧ (updateCurrentSpritePalette true false ll ol np sp st).consoleShown
        = false := by
  have hft : 0 ≤ (countDiff sp np).1
      ∧ (countDiff sp np).1 ≤ (countDiff sp np).2 := ⟨h1, h2⟩
  by_cases hc : st.implantChange = true ∧ ll = some ol
  · simp [updateCurrentSpritePalette, updateInner, hft, hc]
  · simp [updateCurrentSpritePalette, updateInner, hft, hc]

/-- Witness for `c4_implant_iff`: one-entry palettes differing at index 0,
matching labels, implant flag set — the commit implants. -/
theorem c4_implant_iff_witness :
    (updateCurrentSpritePalette true false (some "a") "a"
      [⟨1, 0, 0, 0⟩] [⟨0, 0, 0, 0⟩]
      { mtype := ColorType.RgbType, redrawAll := false, implantChange := true,
        selfPalChange := false, timerRunning := false, fromPalette := [],
        relDeltas := fun _ => 0 }).action = CommitAction.Implant := by
  exact (c4_implant_iff (some "a") "a" [⟨1, 0, 0, 0⟩] [⟨0, 0, 0, 0⟩]
    { mtype := ColorType.RgbType, redrawAll := false, implantChange := true,
      selfPalChange := false, timerRunning := false, fromPalette := [],
      relDeltas := fun _ => 0 } (by decide) (by decide)).1.mpr ⟨rfl, rfl⟩

/-- Claim C6 (confirmed): when `countDiff` reports an empty range
(`from > to`), the commit takes no undo action (no transaction, no
implant), leaves the document's committed palette unchanged, and shows no
error. -/
theorem c6_empty_diff_noop (hd ut : Bool) (ll : Option String) (ol : String)
    (np sp : List Rgba) (st : EditorState)
    (h : (countDiff sp np).2 < (countDiff sp np).1) :
    (updateCurrentSpritePalette hd ut ll ol np sp st).action
        = CommitAction.NoAction
    ∧ (updateCurrentSpritePalette hd ut ll ol np sp st).committed = sp
    ∧ (updateCurrentSpritePalette hd ut ll ol np sp st).consoleShown
        = false := by
  have hn : ¬(0 ≤ (countDiff sp np).1
      ∧ (countDiff sp np).1 ≤ (countDiff sp np).2) := by
    rintro ⟨a, b⟩
    omega
  cases hd
  · simp [updateCurrentSpritePalette]
  · simp [updateCurrentSpritePalette, updateInner, hn]

/-- Witness for `c6_empty_diff_noop`: equal palettes give the empty diff
range `(0, -1)` and the commit does nothing to the undo history. -/
theorem c6_empty_diff_noop_witness :
    (updateCurrentSpritePalette true false (some "a") "a"
      [⟨1, 2, 3, 4⟩] [⟨1, 2, 3, 4⟩]
      { mtype := ColorType.RgbType, redrawAll := false, implantChange := true,
        selfPalChange := false, timerRunning := false, fromPalette := [],
        relDeltas := fun _ => 0 }).action = CommitAction.NoAction := by
  exact (c6_empty_diff_noop true false (some "a") "a" [⟨1, 2, 3, 4⟩]
    [⟨1, 2, 3, 4⟩]
    { mtype := ColorType.RgbType, redrawAll := false, implantChange := true,
      selfPalChange := false, timerRunning := false, fromPalette := [],
      relDeltas := fun _ => 0 } (by decide)).1

/-- Claim C7 (confirmed): an exception raised by the undo layer during the
implant/new-transaction step is caught and shown on the console (non-fatal
notification), the live palette is untouched (no rollback), the document
palette is left as it was, and execution continues into the commit tail
(the function returns normally instead of propagating). -/
theorem c7_undo_exception_caught (ll : Option String) (ol : String)
    (np sp : List Rgba) (st : EditorState) (h1 : 0 ≤ (countDiff sp np).1)
    (h2 : (countDiff sp np).1 ≤ (countDiff sp np).2) :
    (updateCurrentSpritePalette true true ll ol np sp st).consoleShown = true
    ∧ (updateCurrentSpritePalette true true ll ol np sp st).livePalette = np
    ∧ (updateCurrentSpritePalette true true ll ol np sp st).committed = sp
    ∧ (updateCurrentSpritePalette true true ll ol np sp st).st
        = commitTail st := by
  have hft : 0 ≤ (countDiff sp np).1
      ∧ (countDiff sp np).1 ≤ (countDiff sp np).2 := ⟨h1, h2⟩
  by_cases hc : st.implantChange = true ∧ ll = some ol
  · simp [updateCurrentSpritePalette, updateInner, hft, hc]
  · simp [updateCurrentSpritePalette, updateInner, hft, hc]

/-- Witness for `c7_undo_exception_caught`: with a non-empty diff and a
throwing undo layer, the exception is shown and the live palette kept. -/
theorem c7_undo_exception_caught_witness :
    (updateCurrentSpritePalette true true (some "a") "a"
      [⟨1, 0, 0, 0⟩] [⟨0, 0, 0, 0⟩]
      { mtype := ColorType.RgbType, redrawAll := false, implantChange := false,
        selfPalChange := false, timerRunning := false, fromPalette := [],
        relDeltas := fun _ => 0 }).consoleShown = true
    ∧ (updateCurrentSpritePalette true true (some "a") "a"
      [⟨1, 0, 0, 0⟩] [⟨0, 0, 0, 0⟩]
      { mtype := ColorType.RgbType, redrawAll := false, implantChange := false,
        selfPalChange := false, timerRunning := false, fromPalette := [],
        relDeltas := fun _ => 0 }).livePalette = [⟨1, 0, 0, 0⟩] := by
  have h := c7_undo_exception_caught (some "a") "a" [⟨1, 0, 0, 0⟩]
    [⟨0, 0, 0, 0⟩]
    { mtype := ColorType.RgbType, redrawAll := false, implantChange := false,
      selfPalChange := false, timerRunning := false, fromPalette := [],
      relDeltas := fun _ => 0 } (by decide) (by decide)
  exact ⟨h.1, h.2.1⟩

/-- Claim C8 (confirmed): with an empty explicit selection, if the fallback
index is not addressable the picks stay empty and the absolute edit leaves
the palette unchanged (a silent no-op); if the fallback index is valid,
exactly that one index is picked. -/
theorem c8_empty_picks (sel : List Bool) (fb : Int) (mtype : ColorType)
    (ch : Channel) (color : AppColor) (pal : List Rgba)
    (h1 : sel.count true = 0) :
    (¬(0 ≤ fb ∧ fb < (sel.length : Int)) →
        getPicks sel fb = sel
        ∧ setAbsolutePaletteEntryChannel mtype ch color sel fb pal = pal)
    ∧ ((0 ≤ fb ∧ fb < (sel.length : Int)) →
        ∀ j : ℕ, ((getPicks sel fb).getD j false = true ↔ j = fb.toNat)) := by
  constructor
  · intro h2
    have hg : getPicks sel fb = sel := by
      simp only [getPicks, if_pos h1, if_neg h2]
    refine ⟨hg, ?_⟩
    simp only [setAbsolutePaletteEntryChannel, hg]
    exact editLoop_of_no_picks _ sel pal h1
  · intro h3 j
    have hlt : fb.toNat < sel.length := by omega
    have hg : getPicks sel fb = sel.set fb.toNat true := by
      simp only [getPicks, if_pos h1, if_pos h3]
    rw [hg, getD_set_true]
    constructor
    · intro hj
      by_cases he : fb.toNat = j ∧ fb.toNat < sel.length
      · exact he.1.symm
      · rw [if_neg he, getD_false_of_no_picks sel j h1] at hj
        exact absurd hj (by simp)
    · rintro rfl
      rw [if_pos ⟨rfl, hlt⟩]

/-- Witness for `c8_empty_picks`: two-entry empty selection; fallback 5 is
out of range so the edit is a no-op; fallback 1 is valid so index 1 alone
is picked. -/
theorem c8_empty_picks_witness :
    (getPicks [false, false] 5 = [false, false]
      ∧ setAbsolutePaletteEntryChannel ColorType.RgbType Channel.Red
          { red := 200, green := 5, blue := 6, alpha := 7,
            hsvHue := 0, hsvSaturation := 0, hsvValue := 0,
            hslHue := 0, hslSaturation := 0, hslLightness := 0 }
          [false, false] 5 [⟨1, 2, 3, 4⟩] = [⟨1, 2, 3, 4⟩])
    ∧ ((getPicks [false, false] 1).getD 1 false = true ↔ 1 = (1 : Int).toNat) := by
  refine ⟨(c8_empty_picks [false, false] 5 ColorType.RgbType Channel.Red
      { red := 200, green := 5, blue := 6, alpha := 7,
        hsvHue := 0, hsvSaturation := 0, hsvValue := 0,
        hslHue := 0, hslSaturation := 0, hslLightness := 0 }
      [⟨1, 2, 3, 4⟩] (by decide)).1 (by decide), ?_⟩
  exact (c8_empty_picks [false, false] 1 ColorType.RgbType Channel.Red
      { red := 200, green := 5, blue := 6, alpha := 7,
        hsvHue := 0, hsvSaturation := 0, hsvValue := 0,
        hslHue := 0, hslSaturation := 0, hslLightness := 0 }
      [⟨1, 2, 3, 4⟩] (by decide)).2 (by decide) 1

/-- Claim C10 (confirmed): the hex-entry replacement writes the payload's
red, green and blue into every picked entry but always writes alpha 255:
the result does not depend on the payload's alpha at all, and every touched
entry is fully opaque. -/
theorem c10_hex_entry_alpha255 (sel : List Bool) (fb : Int) (color : AppColor)
    (a2 : Int) (pal : List Rgba) (c : ℕ) (z : Rgba) :
    setPaletteEntry sel fb { color with alpha := a2 } pal
        = setPaletteEntry sel fb color pal
    ∧ (c < pal.length → c < (getPicks sel fb).length →
        (getPicks sel fb).getD c false = true →
        (setPaletteEntry sel fb color pal).getD c z
          = rgba color.red color.green color.blue 255)
    ∧ (rgba color.red color.green color.blue 255).a = 255 := by
  refine ⟨rfl, fun hc hs hp => ?_, rfl⟩
  simp only [setPaletteEntry]
  rw [editLoop_getD _ _ _ _ _ hc hs, if_pos hp]

/-- Witness for `c10_hex_entry_alpha255`: entry 0 picked; the payload with
alpha 40 writes `(10, 20, 30)` and alpha 255. -/
theorem c10_hex_entry_alpha255_witness :
    (setPaletteEntry [true] (-1)
      { red := 10, green := 20, blue := 30, alpha := 40,
        hsvHue := 0, hsvSaturation := 0, hsvValue := 0,
        hslHue := 0, hslSaturation := 0, hslLightness := 0 }
      [⟨1, 2, 3, 9⟩]).getD 0 ⟨0, 0, 0, 0⟩ = ⟨10, 20, 30, 255⟩ := by
  have h := (c10_hex_entry_alpha255 [true] (-1)
      { red := 10, green := 20, blue := 30, alpha := 40,
        hsvHue := 0, hsvSaturation := 0, hsvValue := 0,
        hslHue := 0, hslSaturation := 0, hslLightness := 0 }
      0 [⟨1, 2, 3, 9⟩] 0 ⟨0, 0, 0, 0⟩).2.1 (by decide) (by decide) (by decide)
  exact h.trans (by decide)

lemma rgbToHsv_red : rgbToHsv 255 0 0 = (0, 1, 1) := by
  rw [rgbToHsv]
  norm_num

lemma hsvToRgb_red : hsvToRgb 0 1 1 = (255, 0, 0) := by
  rw [hsvToRgb, wrapHue]
  norm_num [clamp01, roundClamp255]

lemma hsvToRgb_320 : hsvToRgb 320 1 1 = (255, 0, 170) := by
  rw [hsvToRgb, wrapHue]
  norm_num [clamp01, roundClamp255]

lemma wrapHue_m400 : wrapHue (-400) = 320 := by
  rw [wrapHue]
  norm_num

lemma relApply_hsv_m400 :
    relApply ColorType.HsvType
      (Function.update (fun _ => 0) Channel.HsvHue (-400)) ⟨255, 0, 0, 255⟩
      = ⟨255, 0, 0, 255⟩ := by
  simp only [relApply, Function.update_apply, reduceCtorEq, if_false, if_true,
    reduceIte]
  norm_num [rgbToHsv_red, relHue, relHueStep, MIDq, MID, rgba]
  norm_num [hsvToRgb_red]
  decide

lemma relApplySpec_hsv_m400 :
    relApplySpec ColorType.HsvType
      (Function.update (fun _ => 0) Channel.HsvHue (-400)) ⟨255, 0, 0, 255⟩
      = ⟨255, 0, 170, 255⟩ := by
  simp only [relApplySpec, Function.update_apply, reduceCtorEq, if_false,
    if_true, reduceIte]
  norm_num [rgbToHsv_red, MIDq, MID, rgba, wrapHue_m400]
  norm_num [hsvToRgb_320]
  refine ⟨by decide, by decide, by decide⟩

/-- Claim C3 counterexample: relative HSV hue −400 on a pure-red baseline
entry.  The code wraps by a single +360 step (giving −40) and then clamps
with `MID(0, h, 360)` to hue 0, leaving the entry red; wrapping the hue
into 0–360, as the claim states, would give hue 320 and the color
`(255, 0, 170)`.  So the new color is not the baseline-plus-delta with hue
wrapped into 0–360. -/
theorem c3_hue_wrap_counterexample :
    (setRelativePaletteEntryChannel ColorType.HsvType [true] (-1)
        Channel.HsvHue (-400) (fun _ => 0) [⟨255, 0, 0, 255⟩]
        [⟨255, 0, 0, 255⟩]).2 = [⟨255, 0, 0, 255⟩]
    ∧ relApplySpec ColorType.HsvType
        (Function.update (fun _ => 0) Channel.HsvHue (-400)) ⟨255, 0, 0, 255⟩
        = ⟨255, 0, 170, 255⟩
    ∧ ((⟨255, 0, 0, 255⟩ : Rgba) ≠ ⟨255, 0, 170, 255⟩) := by
  have hg : getPicks [true] (-1) = [true] := by decide
  refine ⟨?_, relApplySpec_hsv_m400, by decide⟩
  simp only [setRelativePaletteEntryChannel, hg, relLoop, if_true]
  simp [relApply_hsv_m400]

/-- Claim C3 amended: the stored delta map is updated with the new delta
and every picked entry's new color is computed by `relApply` from that
entry's value in the frozen baseline palette (never from its live value);
`relApply` clamps RGB/alpha to `[0,255]` via `MID`, saturation/value/
lightness to `[0,1]` via `MIDq`, and processes hue by a single ±360 step —
clamped to `[0,360]` in HSV (`relHue`) and passed to the conversion in HSL
(`relHueStep`) — which agrees with true wrapping modulo 360 always for the
single step, and for the clamped HSV form whenever baseline hue plus delta
lies within `[-360, 720]`. -/
theorem c3_baseline_deltas_clamped (mtype : ColorType) (sel : List Bool)
    (fb : Int) (ch : Channel) (d : Int) (rd : Channel → Int)
    (fromPal pal : List Rgba) (c : ℕ) (z : Rgba) :
    (setRelativePaletteEntryChannel mtype sel fb ch d rd fromPal pal).1
        = Function.update rd ch d
    ∧ (c < pal.length → c < fromPal.length → c < (getPicks sel fb).length →
        (setRelativePaletteEntryChannel mtype sel fb ch d rd fromPal pal).2.getD
            c z
          = if (getPicks sel fb).getD c false
            then relApply mtype (Function.update rd ch d) (fromPal.getD c z)
            else pal.getD c z)
    ∧ (∀ x : ℚ, 0 ≤ relHue x ∧ relHue x ≤ 360)
    ∧ (∀ x : ℚ, 0 ≤ MIDq 0 x 1 ∧ MIDq 0 x 1 ≤ 1)
    ∧ (∀ x : Int, 0 ≤ MID 0 x 255 ∧ MID 0 x 255 ≤ 255)
    ∧ (∀ x : ℚ, wrapHue (relHueStep x) = wrapHue x)
    ∧ (∀ x : ℚ, -360 ≤ x → x ≤ 720 → wrapHue (relHue x) = wrapHue x) := by
  refine ⟨rfl, fun hc hf hs => ?_, relHue_mem, MIDq_mem, MID_mem,
    wrapHue_relHueStep, fun x hx1 hx2 => wrapHue_relHue_of_bounds hx1 hx2⟩
  simp only [setRelativePaletteEntryChannel]
  exact relLoop_getD _ _ _ _ _ _ hc hf hs

/-- Witness for `c3_baseline_deltas_clamped`: with baseline red 100 but
live red 200, a Red delta of +10 yields 110 — computed from the baseline,
not the live value — and a hue sum of 500 is wrap-equivalent after the
single-step adjustment. -/
theorem c3_baseline_deltas_clamped_witness :
    (setRelativePaletteEntryChannel ColorType.RgbType [true] (-1) Channel.Red
        10 (fun _ => 0) [⟨100, 0, 0, 255⟩] [⟨200, 0, 0, 255⟩]).2.getD 0
        ⟨0, 0, 0, 0⟩ = ⟨110, 0, 0, 255⟩
    ∧ wrapHue (relHue 500) = wrapHue 500 := by
  have h := c3_baseline_deltas_clamped ColorType.RgbType [true] (-1)
    Channel.Red 10 (fun _ => 0) [⟨100, 0, 0, 255⟩] [⟨200, 0, 0, 255⟩] 0
    ⟨0, 0, 0, 0⟩
  exact ⟨(h.2.1 (by decide) (by decide) (by decide)).trans (by decide),
    h.2.2.2.2.2.2 500 (by norm_num) (by norm_num)⟩

end PaletteEditor
